import Mathlib

/-!
Verification of the kannader wasm host/guest call bridge
(`kannader-config-macros/src/lib.rs`).

The crate generates, from a fixed procedure registry (`SERVER_CONFIG`),
three artifacts:
  * a guest-side dispatcher (`make_guest_server`): one exported entry point
    per procedure, of shape `(arg_ptr: usize, arg_size: usize) -> u64`;
  * a host-side typed client (`make_host_client`): one closure per
    procedure driving the allocate/write/call/read/deallocate/decode
    pipeline against a wasmtime instance;
  * the guest `setup` entry point and the host `setup` driver
    (`implement_guest` / `implement_host`).

This file shallowly embeds those generated code paths.  Machine integers
are modelled as `Nat` with explicit `% 2^32` / `% 2^64` at the places the
Rust code performs narrowing casts; `debug_assert!` is modelled with
release semantics (erased); fallible steps return `Except`/`Option`.
Each pipeline additionally returns the list of externally visible events
(allocator calls, raw memory reads/writes, guest invocations) in the
order the generated code performs them, so that "no byte is touched" and
"the allocator is not called" style properties can be stated.

The bincode codec is an external crate; both sides are built from the
same registry, so encode/decode are modelled as a matched abstract pair.
What IS modelled concretely is everything the macros themselves decide:
tuple component order, mutability filtering, buffer sizes, the packed
64-bit return word, the bounds checks, and the stage order.
-/

namespace Kannader

/-- Number of values of a `u32`; `usize` on the wasm32 guest side. -/
def U32 : Nat := 4294967296

/-- Number of values of a `u64`. -/
def U64 : Nat := 18446744073709551616

/-- Packing of the guest entry point's return value, from
`make_guest_server`: `((ret_size as u64) << 32) | (ret_ptr as u64)`
(src/kannader-config-macros/src/lib.rs:300).  Both inputs are `usize`
(32-bit on wasm32); the arithmetic happens in `u64`. -/
def packRet (retSize retPtr : Nat) : Nat :=
  (((retSize % U32) <<< 32) ||| (retPtr % U32)) % U64

/-- Host-side unpacking of the low half of the returned word, from
`make_host_client`: `let res_ptr = (res_u64 & 0xFFFF_FFFF) as usize;`
(src/kannader-config-macros/src/lib.rs:419). -/
def unpackPtr (w : Nat) : Nat := w &&& 4294967295

/-- Host-side unpacking of the high half of the returned word, from
`make_host_client`: `let res_size = ((res_u64 >> 32) & 0xFFFF_FFFF) as usize;`
(src/kannader-config-macros/src/lib.rs:420). -/
def unpackSize (w : Nat) : Nat := (w >>> 32) &&& 4294967295

/-- Externally visible events of one generated call path, in program
order: calls into the guest allocator/deallocator, raw reads and writes
of guest linear memory, the wasm procedure invocation itself, and (guest
side) the invocation of the registered Rust implementation. -/
inductive Event where
  | allocCall (size : Nat)
  | memWrite (addr size : Nat)
  | guestCall (addr size : Nat)
  | memRead (addr size : Nat)
  | deallocCall (addr size : Nat)
  | implCall
deriving DecidableEq, Repr

/-- Failure modes of the host-side pipeline (each `?`/`ensure!` early
return in the generated closure). -/
inductive HostError where
  | allocTrap
  | boundsArg
  | guestTrap
  | boundsRes
  | deallocTrap
  | decodeError
deriving DecidableEq, Repr

/-- Trap causes of the guest-side entry points (every `.unwrap()` /
`assert!` in the generated guest code aborts, which wasm surfaces as a
trap). -/
inductive GuestTrap where
  | decodeTrap
  | noCfg
  | alreadyConfigured
deriving DecidableEq, Repr

/-- Reading `size` raw bytes of guest linear memory starting at `addr`
(`volatile_copy_nonoverlapping_memory` out of `memory.data_ptr()`). -/
def readBytes (mem : Nat → Nat) (addr size : Nat) : List Nat :=
  (List.range size).map (fun i => mem (addr + i))

/-- One parameter of a registry procedure: its name and whether it is
declared `(&mut)` in the `communicator!` table. -/
structure RegArg where
  name : String
  is_mut : Bool
deriving DecidableEq, Repr

/-- One entry of the procedure registry: wasm export name, trait method
name, parameter list, and whether the `communicator!` entry carries a
default body (terminator `{ ... }` rather than `;`). -/
structure RegFunction where
  ffi_name : String
  fn_name : String
  args : List RegArg
  has_default : Bool
deriving DecidableEq, Repr

/-- Environment a generated host-client closure runs against: the live
wasmtime instance's memory size, its `allocate`/`deallocate` exports, the
resolved wasm function, the memory contents observed when the host reads
the result buffer, and the (external, bincode) result decoder.  `none`
models a wasm trap (`Result::Err(wasmtime::Trap)` in the source). -/
structure HostEnv (V : Type) where
  memSize : Nat
  alloc : Nat → Option Nat
  callRet : Nat → Nat → Option Nat
  mem : Nat → Nat
  deallocOk : Bool
  decodeRes : List Nat → Option (V × List V)

/-- Simultaneous write-back of the trailing result components into the
caller-supplied arguments, from `make_host_client`:
`(res, *b, *c) = bincode::deserialize(&res_msg)...?`
(src/kannader-config-macros/src/lib.rs:442-445).  Each mutable argument
(declaration order) receives the next trailing component; immutable
arguments are untouched.  `none` models an arity mismatch, which in the
typed Rust code is a decode failure. -/
def assignMuts {V : Type} : List (RegArg × V) → List V → Option (List (RegArg × V))
  | [], [] => some []
  | [], _ :: _ => none
  | (a, v) :: rest, vs =>
    if a.is_mut then
      match vs with
      | [] => none
      | v' :: vs' => (assignMuts rest vs').map (fun r => (a, v') :: r)
    else
      (assignMuts rest vs).map (fun r => (a, v) :: r)

/-- One invocation of a generated host-client closure
(src/kannader-config-macros/src/lib.rs:378-446), with release semantics
for `debug_assert!`.  Stages, in source order: compute the bincode size
of the argument tuple and narrow it with `as u32`; call the guest
allocator; `ensure!` the returned region lies strictly inside memory;
write the encoding; invoke the wasm function; unpack the returned word;
`ensure!` the result region lies strictly inside memory; read the result
bytes; call the guest deallocator; decode; and only then assign the
mutable arguments.  Returns the call result, the final values of the
caller's arguments, and the event trace. -/
def hostCall {V : Type} (env : HostEnv V) (argSize : Nat)
    (callerArgs : List (RegArg × V)) :
    Except HostError V × List (RegArg × V) × List Event :=
  let a32 := argSize % U32
  match env.alloc a32 with
  | none => (.error .allocTrap, callerArgs, [.allocCall a32])
  | some argPtr =>
    if argPtr + a32 < env.memSize then
      match env.callRet argPtr a32 with
      | none => (.error .guestTrap, callerArgs,
          [.allocCall a32, .memWrite argPtr a32, .guestCall argPtr a32])
      | some w =>
        let resPtr := unpackPtr w
        let resSize := unpackSize w
        if resPtr + resSize < env.memSize then
          let msg := readBytes env.mem resPtr resSize
          let tr := [Event.allocCall a32, .memWrite argPtr a32,
                     .guestCall argPtr a32, .memRead resPtr resSize,
                     .deallocCall resPtr resSize]
          if env.deallocOk then
            match env.decodeRes msg with
            | none => (.error .decodeError, callerArgs, tr)
            | some (r, muts) =>
              match assignMuts callerArgs muts with
              | none => (.error .decodeError, callerArgs, tr)
              | some newArgs => (.ok r, newArgs, tr)
          else
            (.error .deallocTrap, callerArgs, tr)
        else
          (.error .boundsRes, callerArgs,
            [.allocCall a32, .memWrite argPtr a32, .guestCall argPtr a32])
    else
      (.error .boundsArg, callerArgs, [.allocCall a32])

/-- Environment of the host-side `setup` driver (`implement_host`,
src/kannader-config-macros/src/lib.rs:99-160): memory size, the guest
allocator, and whether the wasm `setup` call returns or traps. -/
structure HostSetupEnv where
  memSize : Nat
  alloc : Nat → Option Nat
  callOk : Nat → Nat → Bool

/-- The host-side `setup` driver (src/kannader-config-macros/src/lib.rs:99-160):
compute the bincode size of the path and narrow it with `as u32`, call
the guest allocator, `ensure!` bounds, write the encoding, call the wasm
`setup` export.  No result buffer is managed. -/
def hostSetup (env : HostSetupEnv) (argSize : Nat) :
    Except HostError Unit × List Event :=
  let a32 := argSize % U32
  match env.alloc a32 with
  | none => (.error .allocTrap, [.allocCall a32])
  | some argPtr =>
    if argPtr + a32 < env.memSize then
      if env.callOk argPtr a32 then
        (.ok (), [.allocCall a32, .memWrite argPtr a32, .guestCall argPtr a32])
      else
        (.error .guestTrap, [.allocCall a32, .memWrite argPtr a32, .guestCall argPtr a32])
    else
      (.error .boundsArg, [.allocCall a32])

/-- Environment of one generated guest dispatcher entry point
(`make_guest_server`): current linear-memory size (ambient context never
consulted by the generated code), memory contents, the (external,
bincode) argument decoder, the guest-local configuration cell, the
registered implementation (returning the primary value and the post-call
values of the mutable parameters), the (external, bincode) result
encoder, and the guest-internal allocator. -/
structure GuestEnv (A C V : Type) where
  memSize : Nat
  mem : Nat → Nat
  decodeArgs : List Nat → Option A
  cfg : Option C
  impl : C → A → V × List V
  encodeRes : V × List V → List Nat
  retAlloc : Nat → Nat

/-- One invocation of a generated guest entry point
(src/kannader-config-macros/src/lib.rs:269-301).  Stages, in source
order: build a slice from the raw `(arg_ptr, arg_size)` pair and
bincode-decode it (`.unwrap()`: decode failure aborts — no bounds check
of the pair against the memory size is performed); deallocate the
argument buffer; unwrap the guest-local configuration (`.unwrap()`:
aborts when absent); invoke the implementation; encode the result tuple;
allocate the result buffer (its size narrowed by the `as usize` cast,
32-bit on wasm32); write it; return the packed `(size << 32) | ptr`
word. -/
def guestDispatch {A C V : Type} (env : GuestEnv A C V) (argPtr argSize : Nat) :
    Except GuestTrap Nat × List Event :=
  let msg := readBytes env.mem argPtr argSize
  match env.decodeArgs msg with
  | none => (.error .decodeTrap, [.memRead argPtr argSize])
  | some args =>
    match env.cfg with
    | none => (.error .noCfg,
        [.memRead argPtr argSize, .deallocCall argPtr argSize])
    | some c =>
      let res := env.impl c args
      let retSize := (env.encodeRes res).length % U32
      let retPtr := env.retAlloc retSize
      (.ok (packRet retSize retPtr),
        [.memRead argPtr argSize, .deallocCall argPtr argSize, .implCall,
         .allocCall retSize, .memWrite retPtr retSize])

/-- Environment of the guest `setup` entry point (`implement_guest`):
memory contents, the (external, bincode) path decoder, and the
`Config::setup` constructor. -/
structure GuestSetupEnv (P C : Type) where
  mem : Nat → Nat
  decodePath : List Nat → Option P
  mkCfg : P → C

/-- The guest `setup` entry point (src/kannader-config-macros/src/lib.rs:62-75).
Stages, in source order: build a slice from the raw pair and decode the
path (`.unwrap()`: aborts on failure); deallocate the argument buffer;
`assert!` that the configuration cell is still empty (aborts when it is
already populated, leaving the cell untouched); store the new
configuration.  Returns the outcome, the final contents of the
configuration cell, and the event trace. -/
def guestSetup {P C : Type} (env : GuestSetupEnv P C) (cfg0 : Option C)
    (argPtr argSize : Nat) :
    Except GuestTrap Unit × Option C × List Event :=
  let msg := readBytes env.mem argPtr argSize
  match env.decodePath msg with
  | none => (.error .decodeTrap, cfg0, [.memRead argPtr argSize])
  | some p =>
    match cfg0 with
    | some c => (.error .alreadyConfigured, some c,
        [.memRead argPtr argSize, .deallocCall argPtr argSize])
    | none => (.ok (), some (env.mkCfg p),
        [.memRead argPtr argSize, .deallocCall argPtr argSize])

/-- Values of the mutable parameters, in declaration order, as collected
by the generated guest entry point: `args.iter().filter_map(|a| if a.is_mut ...)`
(src/kannader-config-macros/src/lib.rs:259-263). -/
def mutValues {V : Type} (args : List (RegArg × V)) : List V :=
  (args.filter (fun p => p.1.is_mut)).map Prod.snd

/-- The result tuple the generated guest entry point builds:
`let res = (res, #(#result),*);` (src/kannader-config-macros/src/lib.rs:284)
— the primary return value followed by the post-call value of every
mutable parameter, in declaration order. -/
def guestResultTuple {V : Type} (ret : V) (postArgs : List (RegArg × V)) : List V :=
  ret :: mutValues postArgs

/-- The host's consumption of the decoded result tuple:
`let res; (res, #(#result_assignment),*) = bincode::deserialize(..)?; Ok(res)`
(src/kannader-config-macros/src/lib.rs:441-445): head is the primary
value, the trailing components are assigned to the mutable arguments in
declaration order. -/
def hostWriteBack {V : Type} (callerArgs : List (RegArg × V)) (decoded : List V) :
    Option (V × List (RegArg × V)) :=
  match decoded with
  | [] => none
  | r :: rest => (assignMuts callerArgs rest).map (fun newArgs => (r, newArgs))

/-- Pointwise merge of a pre-call argument list with a post-call one
sharing the same parameter skeleton: mutable parameters take the
post-call value, immutable ones keep the caller's value. -/
def mergeMut {V : Type} : List (RegArg × V) → List (RegArg × V) → List (RegArg × V)
  | (a, v) :: rest, (_, w) :: rest' =>
    (a, if a.is_mut then w else v) :: mergeMut rest rest'
  | _, _ => []

/-- Order in which the generated host closure encodes the arguments:
`let arg = ( #(#encode_args),* );` with `encode_args` iterating
`f.args` (src/kannader-config-macros/src/lib.rs:342,380) — declaration
order, mutability ignored. -/
def hostEncodeOrder (args : List RegArg) : List String :=
  args.map (fun a => a.name)

/-- Order in which the generated guest entry point decodes the argument
tuple: `let ( #(#deserialize_pat),* ) = bincode::deserialize(..)` with
`deserialize_pat` iterating `args` (src/kannader-config-macros/src/lib.rs:245-251,272)
— declaration order, mutability only affecting the `mut` binder. -/
def guestDecodeOrder (args : List RegArg) : List String :=
  args.map (fun a => a.name)

/-- The spec's description of the argument-tuple order: immutable
parameters in declaration order, then mutable parameters in declaration
order. -/
def immThenMutOrder (args : List RegArg) : List String :=
  (args.filter (fun a => !a.is_mut)).map (fun a => a.name)
    ++ (args.filter (fun a => a.is_mut)).map (fun a => a.name)

/-- The `SERVER_CONFIG` procedure registry
(src/kannader-config-macros/src/lib.rs:514-761), transcribed entry by
entry: wasm export name, trait method name, parameters with their
`(&mut)` markers, and whether the entry carries a default body. -/
def SERVER_CONFIG : List RegFunction := [
  ⟨"server_config_welcome_banner_reply", "welcome_banner_reply",
    [⟨"conn_meta", true⟩], false⟩,
  ⟨"server_config_filter_hello", "filter_hello",
    [⟨"is_ehlo", false⟩, ⟨"hostname", false⟩, ⟨"conn_meta", true⟩], false⟩,
  ⟨"server_config_can_do_tls", "can_do_tls",
    [⟨"conn_meta", false⟩], true⟩,
  ⟨"server_config_new_mail", "new_mail",
    [⟨"conn_meta", true⟩], false⟩,
  ⟨"server_config_filter_from", "filter_from",
    [⟨"from", false⟩, ⟨"meta", true⟩, ⟨"conn_meta", true⟩], false⟩,
  ⟨"server_config_filter_to", "filter_to",
    [⟨"to", false⟩, ⟨"meta", true⟩, ⟨"conn_meta", true⟩], false⟩,
  ⟨"server_config_filter_data", "filter_data",
    [⟨"meta", true⟩, ⟨"conn_meta", true⟩], true⟩,
  ⟨"server_config_handle_rset", "handle_rset",
    [⟨"meta", true⟩, ⟨"conn_meta", true⟩], true⟩,
  ⟨"server_config_handle_starttls", "handle_starttls",
    [⟨"conn_meta", true⟩], true⟩,
  ⟨"server_config_handle_expn", "handle_expn",
    [⟨"name", false⟩, ⟨"conn_meta", true⟩], true⟩,
  ⟨"server_config_handle_vrfy", "handle_vrfy",
    [⟨"name", false⟩, ⟨"conn_meta", true⟩], true⟩,
  ⟨"server_config_handle_help", "handle_help",
    [⟨"subject", false⟩, ⟨"conn_meta", true⟩], true⟩,
  ⟨"server_config_handle_noop", "handle_noop",
    [⟨"string", false⟩, ⟨"conn_meta", true⟩], true⟩,
  ⟨"server_config_handle_quit", "handle_quit",
    [⟨"conn_meta", true⟩], true⟩,
  ⟨"server_config_already_did_hello", "already_did_hello",
    [⟨"conn_meta", true⟩], true⟩,
  ⟨"server_config_mail_before_hello", "mail_before_hello",
    [⟨"conn_meta", true⟩], true⟩,
  ⟨"server_config_already_in_mail", "already_in_mail",
    [⟨"conn_meta", true⟩], true⟩,
  ⟨"server_config_rcpt_before_mail", "rcpt_before_mail",
    [⟨"conn_meta", true⟩], true⟩,
  ⟨"server_config_data_before_rcpt", "data_before_rcpt",
    [⟨"conn_meta", true⟩], true⟩,
  ⟨"server_config_data_before_mail", "data_before_mail",
    [⟨"conn_meta", true⟩], true⟩,
  ⟨"server_config_starttls_unsupported", "starttls_unsupported",
    [⟨"conn_meta", true⟩], true⟩,
  ⟨"server_config_command_unrecognized", "command_unrecognized",
    [⟨"conn_meta", true⟩], true⟩,
  ⟨"server_config_pipeline_forbidden_after_starttls", "pipeline_forbidden_after_starttls",
    [⟨"conn_meta", true⟩], true⟩,
  ⟨"server_config_line_too_long", "line_too_long",
    [⟨"conn_meta", true⟩], true⟩,
  ⟨"server_config_handle_mail_did_not_call_complete", "handle_mail_did_not_call_complete",
    [⟨"conn_meta", true⟩], true⟩,
  ⟨"server_config_reply_write_timeout_in_millis", "reply_write_timeout_in_millis",
    [], true⟩,
  ⟨"server_config_command_read_timeout_in_millis", "command_read_timeout_in_millis",
    [], true⟩]

/-- Concrete instance environment whose wasm procedure call traps
(models scenario: guest traps mid-execution). -/
def envTrap : HostEnv Nat where
  memSize := 100
  alloc := fun _ => some 8
  callRet := fun _ _ => none
  mem := fun _ => 0
  deallocOk := true
  decodeRes := fun _ => some (7, [])

/-- Concrete instance environment whose wasm procedure call succeeds,
returning a result buffer at address 16 of size 4. -/
def envOk : HostEnv Nat where
  memSize := 100
  alloc := fun _ => some 8
  callRet := fun _ _ => some (packRet 4 16)
  mem := fun _ => 0
  deallocOk := true
  decodeRes := fun _ => some (7, [])

/-- Concrete instance environment whose allocator returns a region that
fails the host's bounds check. -/
def envBoundsBad : HostEnv Nat where
  memSize := 100
  alloc := fun _ => some 200
  callRet := fun _ _ => some 0
  mem := fun _ => 0
  deallocOk := true
  decodeRes := fun _ => some (7, [])

/-- Concrete guest dispatcher environment: tiny linear memory (4 bytes),
a configuration present, trivial codec. -/
def genvOk : GuestEnv Nat Nat Nat where
  memSize := 4
  mem := fun _ => 0
  decodeArgs := fun _ => some 0
  cfg := some 0
  impl := fun _ _ => (1, [])
  encodeRes := fun _ => [1, 2, 3]
  retAlloc := fun _ => 16

/-- Concrete guest dispatcher environment with no configuration
populated (no successful Setup call has happened). -/
def genvNoCfg : GuestEnv Nat Nat Nat where
  memSize := 4
  mem := fun _ => 0
  decodeArgs := fun _ => some 0
  cfg := none
  impl := fun _ _ => (1, [])
  encodeRes := fun _ => [1, 2, 3]
  retAlloc := fun _ => 16

/-- Concrete guest setup environment with a trivially decodable payload. -/
def genvSetup : GuestSetupEnv Nat Nat where
  mem := fun _ => 0
  decodePath := fun _ => some 1
  mkCfg := fun p => p


/-- The `0xFFFF_FFFF` mask is reduction modulo `2 ^ 32`. -/
theorem mask_eq_mod (x : Nat) : x &&& 4294967295 = x % 2 ^ 32 := by
  have h : (4294967295 : Nat) = 2 ^ 32 - 1 := by norm_num
  rw [h, Nat.and_pow_two_sub_one_eq_mod]

/-- Low 32 bits of the packed word recover the address. -/
theorem lor_low_bits (s a : Nat) (ha : a < 2 ^ 32) :
    ((s <<< 32) ||| a) % 2 ^ 32 = a := by
  apply Nat.eq_of_testBit_eq
  intro i
  simp only [Nat.testBit_mod_two_pow, Nat.testBit_lor, Nat.testBit_shiftLeft]
  by_cases h : i < 32
  · simp [h, Nat.not_le.mpr h]
  · have hai : a.testBit i = false :=
      Nat.testBit_lt_two_pow
        (lt_of_lt_of_le ha (Nat.pow_le_pow_right (by norm_num) (Nat.le_of_not_lt h)))
    simp [h, hai]

/-- High 32 bits of the packed word (after the `u64` wrap) recover the
size. -/
theorem lor_high_bits (s a : Nat) (ha : a < 2 ^ 32) (hs : s < 2 ^ 32) :
    ((((s <<< 32) ||| a) % 2 ^ 64) >>> 32) % 2 ^ 32 = s := by
  apply Nat.eq_of_testBit_eq
  intro i
  simp only [Nat.testBit_mod_two_pow, Nat.testBit_shiftRight, Nat.testBit_lor,
    Nat.testBit_shiftLeft]
  by_cases h : i < 32
  · have ha' : a.testBit (32 + i) = false :=
      Nat.testBit_lt_two_pow
        (lt_of_lt_of_le ha (Nat.pow_le_pow_right (by norm_num) (by omega)))
    have h64 : 32 + i < 64 := by omega
    have hsub : 32 + i - 32 = i := by omega
    simp [h, ha', h64, hsub]
  · have hs' : s.testBit i = false :=
      Nat.testBit_lt_two_pow
        (lt_of_lt_of_le hs (Nat.pow_le_pow_right (by norm_num) (Nat.le_of_not_lt h)))
    simp [h, hs']

/-- Helper for the mutable-echo claim: decoding the guest's result tuple
tail against the caller's argument list assigns exactly the post-call
mutable values, immutables untouched. -/
theorem assignMuts_mutValues {V : Type} :
    ∀ args1 args2 : List (RegArg × V),
      args1.map Prod.fst = args2.map Prod.fst →
      assignMuts args1 (mutValues args2) = some (mergeMut args1 args2) := by
  intro args1
  induction args1 with
  | nil =>
    intro args2 h
    cases args2 with
    | nil => simp [assignMuts, mutValues, mergeMut]
    | cons b bs => simp at h
  | cons p rest ih =>
    intro args2 h
    cases args2 with
    | nil => simp at h
    | cons q qs =>
      obtain ⟨p1, v⟩ := p
      obtain ⟨q1, w⟩ := q
      simp only [List.map_cons, List.cons.injEq] at h
      obtain ⟨hpq, hrest⟩ := h
      subst hpq
      by_cases hm : p1.is_mut
      · have hmv : mutValues ((p1, w) :: qs) = w :: mutValues qs := by
          simp [mutValues, List.filter_cons, hm]
        rw [hmv]
        simp [assignMuts, hm, ih qs hrest, mergeMut]
      · have hmv : mutValues ((p1, w) :: qs) = mutValues qs := by
          simp [mutValues, List.filter_cons, hm]
        rw [hmv]
        simp [assignMuts, hm, ih qs hrest, mergeMut]

/-- C6: the guest packs the result buffer as `(size << 32) | address`
and the host's unpacking (low 32 bits = address, high 32 bits = size) is
the exact inverse: for all `size, address < 2^32`, unpacking the packed
word recovers exactly the pair the guest packed. -/
theorem c6_pack_unpack_inverse (addr size : Nat) (ha : addr < 2 ^ 32)
    (hs : size < 2 ^ 32) :
    unpackPtr (packRet size addr) = addr ∧ unpackSize (packRet size addr) = size := by
  have hu32 : U32 = 2 ^ 32 := by norm_num [U32]
  have hu64 : U64 = 2 ^ 64 := by norm_num [U64]
  have hsz : size % U32 = size := by rw [hu32]; exact Nat.mod_eq_of_lt hs
  have haz : addr % U32 = addr := by rw [hu32]; exact Nat.mod_eq_of_lt ha
  constructor
  · unfold unpackPtr packRet
    rw [hsz, haz, mask_eq_mod, hu64,
      Nat.mod_mod_of_dvd _ (Nat.pow_dvd_pow 2 (by norm_num))]
    exact lor_low_bits size addr ha
  · unfold unpackSize packRet
    rw [hsz, haz, mask_eq_mod, hu64]
    exact lor_high_bits size addr ha hs

/-- Witness for C6 at the concrete pair address 16, size 4. -/
theorem c6_pack_unpack_inverse_witness :
    unpackPtr (packRet 4 16) = 16 ∧ unpackSize (packRet 4 16) = 4 :=
  c6_pack_unpack_inverse 16 4 (by norm_num) (by norm_num)

/-- C5: the guest's result buffer decodes as the tuple
`(T, b', c')` — primary return value first, then the post-call value of
each mutable parameter in declaration order — and the host client writes
each caller-supplied mutable argument back from its corresponding
trailing field and returns the primary value.  Stated generally (any
argument list; post-call values merged into the caller's bindings,
immutables untouched) and at the spec's `(a: immutable, b: mutable,
c: mutable) -> T` example shape. -/
theorem c5_mutable_echo_order :
    (∀ (V : Type) (ret : V) (args1 args2 : List (RegArg × V)),
        args1.map Prod.fst = args2.map Prod.fst →
        hostWriteBack args1 (guestResultTuple ret args2) =
          some (ret, mergeMut args1 args2)) ∧
    (∀ (V : Type) (t av bv cv bNew cNew : V),
        guestResultTuple t
            [(⟨"a", false⟩, av), (⟨"b", true⟩, bNew), (⟨"c", true⟩, cNew)] =
          [t, bNew, cNew] ∧
        hostWriteBack [(⟨"a", false⟩, av), (⟨"b", true⟩, bv), (⟨"c", true⟩, cv)]
            [t, bNew, cNew] =
          some (t, [(⟨"a", false⟩, av), (⟨"b", true⟩, bNew), (⟨"c", true⟩, cNew)])) := by
  constructor
  · intro V ret args1 args2 h
    simp [hostWriteBack, guestResultTuple, assignMuts_mutValues args1 args2 h]
  · intro V t av bv cv bNew cNew
    constructor
    · simp [guestResultTuple, mutValues]
    · simp [hostWriteBack, assignMuts]

/-- Witness for C5: one immutable and one mutable argument over `Nat`. -/
theorem c5_mutable_echo_order_witness :
    hostWriteBack [((⟨"x", false⟩ : RegArg), (5 : Nat)), (⟨"y", true⟩, 10)]
        (guestResultTuple 3 [(⟨"x", false⟩, 5), (⟨"y", true⟩, 20)]) =
      some (3, mergeMut [((⟨"x", false⟩ : RegArg), (5 : Nat)), (⟨"y", true⟩, 10)]
        [(⟨"x", false⟩, 5), (⟨"y", true⟩, 20)]) :=
  c5_mutable_echo_order.1 Nat 3
    [(⟨"x", false⟩, 5), (⟨"y", true⟩, 10)]
    [(⟨"x", false⟩, 5), (⟨"y", true⟩, 20)] rfl

/-- C4: at most one Setup call succeeds per instance: on an instance
whose Config State is already populated, `setup` always fails by
trapping (either at payload decoding or at the `assert!`), and the
stored Config State value is left unmodified; conversely a `setup` call
can only succeed when no configuration was stored. -/
theorem c4_setup_at_most_once :
    (∀ (P C : Type) (env : GuestSetupEnv P C) (c : C) (argPtr argSize : Nat),
        ((guestSetup env (some c) argPtr argSize).1 = .error .decodeTrap ∨
         (guestSetup env (some c) argPtr argSize).1 = .error .alreadyConfigured) ∧
        (guestSetup env (some c) argPtr argSize).2.1 = some c) ∧
    (∀ (P C : Type) (env : GuestSetupEnv P C) (cfg0 : Option C) (argPtr argSize : Nat),
        (guestSetup env cfg0 argPtr argSize).1 = .ok () → cfg0 = none) := by
  constructor
  · intro P C env c p s
    unfold guestSetup
    cases h : env.decodePath (readBytes env.mem p s) <;> simp [h]
  · intro P C env cfg0 p s
    unfold guestSetup
    cases h : env.decodePath (readBytes env.mem p s) <;> cases cfg0 <;> simp [h]

/-- Witness for C4: a second `setup` on the concrete configured instance
fails and leaves the stored value 42 unchanged. -/
theorem c4_setup_at_most_once_witness :
    ((guestSetup genvSetup (some 42) 0 0).1 = .error .decodeTrap ∨
     (guestSetup genvSetup (some 42) 0 0).1 = .error .alreadyConfigured) ∧
    (guestSetup genvSetup (some 42) 0 0).2.1 = some 42 :=
  c4_setup_at_most_once.1 Nat Nat genvSetup 42 0 0

/-- C10: invoking a registry procedure entry point on an instance whose
Config State was never populated traps — the dispatcher unwraps the
guest-local configuration (after argument decoding and deallocation)
before calling the implementation, so the implementation is never
invoked without a configuration present. -/
theorem c10_no_impl_without_config (A C V : Type) (env : GuestEnv A C V)
    (argPtr argSize : Nat) (hcfg : env.cfg = none) :
    ((guestDispatch env argPtr argSize).1 = .error .decodeTrap ∨
     (guestDispatch env argPtr argSize).1 = .error .noCfg) ∧
    Event.implCall ∉ (guestDispatch env argPtr argSize).2 := by
  unfold guestDispatch
  cases h : env.decodeArgs (readBytes env.mem argPtr argSize) <;> simp [h, hcfg]

/-- Witness for C10 on the concrete unconfigured guest environment. -/
theorem c10_no_impl_without_config_witness :
    ((guestDispatch genvNoCfg 0 0).1 = .error .decodeTrap ∨
     (guestDispatch genvNoCfg 0 0).1 = .error .noCfg) ∧
    Event.implCall ∉ (guestDispatch genvNoCfg 0 0).2 :=
  c10_no_impl_without_config Nat Nat Nat genvNoCfg 0 0 rfl

/-- C9: if a generated host-client call returns an error at any stage
(size computation, allocation, bounds check, write, guest invocation,
result bounds check, result-buffer deallocation, or result decoding),
every caller-supplied mutable argument still holds its pre-call value:
write-back happens only after the result tuple was successfully
decoded. -/
theorem c9_no_writeback_on_error (V : Type) (env : HostEnv V) (argSize : Nat)
    (args : List (RegArg × V)) (e : HostError)
    (h : (hostCall env argSize args).1 = .error e) :
    (hostCall env argSize args).2.1 = args := by
  cases h1 : env.alloc (argSize % U32) with
  | none => simp [hostCall, h1]
  | some argPtr =>
    by_cases h2 : argPtr + argSize % U32 < env.memSize
    · cases h3 : env.callRet argPtr (argSize % U32) with
      | none => simp [hostCall, h1, h2, h3]
      | some w =>
        by_cases h4 : unpackPtr w + unpackSize w < env.memSize
        · by_cases h5 : env.deallocOk
          · cases h6 : env.decodeRes (readBytes env.mem (unpackPtr w) (unpackSize w)) with
            | none => simp [hostCall, h1, h2, h3, h4, h5, h6]
            | some rm =>
              obtain ⟨r, muts⟩ := rm
              cases h7 : assignMuts args muts with
              | none => simp [hostCall, h1, h2, h3, h4, h5, h6, h7]
              | some newArgs =>
                simp [hostCall, h1, h2, h3, h4, h5, h6, h7] at h
          · simp [hostCall, h1, h2, h3, h4, h5]
        · simp [hostCall, h1, h2, h3, h4]
    · simp [hostCall, h1, h2]

/-- Witness for C9: on the concrete trapping instance, a caller-supplied
mutable argument keeps its pre-call value 5. -/
theorem c9_no_writeback_on_error_witness :
    (hostCall envTrap 5 [((⟨"y", true⟩ : RegArg), (5 : Nat))]).2.1 =
      [((⟨"y", true⟩ : RegArg), (5 : Nat))] :=
  c9_no_writeback_on_error Nat envTrap 5 [(⟨"y", true⟩, 5)] .guestTrap rfl

/-- C2: before the host writes the encoded argument into the
guest-allocated buffer and before it reads a guest-returned result
buffer, it checks `address + size < current memory size`; on violation
the call fails with an error and no guest-memory byte is read or
written.  Stated for the generated per-procedure closures (both
directions) and for the host `setup` driver (argument direction — it
manages no result buffer). -/
theorem c2_host_bounds_checked :
    (∀ (V : Type) (env : HostEnv V) (argSize : Nat) (args : List (RegArg × V))
        (p : Nat), env.alloc (argSize % U32) = some p →
        ¬ p + argSize % U32 < env.memSize →
        (hostCall env argSize args).1 = .error .boundsArg ∧
        ∀ q r, Event.memWrite q r ∉ (hostCall env argSize args).2.2 ∧
               Event.memRead q r ∉ (hostCall env argSize args).2.2) ∧
    (∀ (V : Type) (env : HostEnv V) (argSize : Nat) (args : List (RegArg × V))
        (p w : Nat), env.alloc (argSize % U32) = some p →
        p + argSize % U32 < env.memSize →
        env.callRet p (argSize % U32) = some w →
        ¬ unpackPtr w + unpackSize w < env.memSize →
        (hostCall env argSize args).1 = .error .boundsRes ∧
        ∀ q r, Event.memRead q r ∉ (hostCall env argSize args).2.2) ∧
    (∀ (env : HostSetupEnv) (argSize p : Nat),
        env.alloc (argSize % U32) = some p →
        ¬ p + argSize % U32 < env.memSize →
        (hostSetup env argSize).1 = .error .boundsArg ∧
        ∀ q r, Event.memWrite q r ∉ (hostSetup env argSize).2 ∧
               Event.memRead q r ∉ (hostSetup env argSize).2) := by
  refine ⟨?_, ?_, ?_⟩
  · intro V env argSize args p h1 h2
    simp [hostCall, h1, h2]
  · intro V env argSize args p w h1 h2 h3 h4
    simp [hostCall, h1, h2, h3, h4]
  · intro env argSize p h1 h2
    simp [hostSetup, h1, h2]

/-- Witness for C2: the concrete instance whose allocator hands back an
out-of-bounds region makes the call fail before any memory access. -/
theorem c2_host_bounds_checked_witness :
    ((hostCall envBoundsBad 5 ([] : List (RegArg × Nat))).1 = .error .boundsArg ∧
      Event.memWrite 3 4 ∉ (hostCall envBoundsBad 5 ([] : List (RegArg × Nat))).2.2) ∧
    Event.memRead 3 4 ∉ (hostCall envBoundsBad 5 ([] : List (RegArg × Nat))).2.2 := by
  have h := c2_host_bounds_checked.1 Nat envBoundsBad 5 [] 200 rfl (by decide)
  exact ⟨⟨h.1, (h.2 3 4).1⟩, (h.2 3 4).2⟩

/-- C7: the generated host closure encodes the arguments as the tuple of
all parameters in declaration order and the generated guest entry point
decodes them in the same order; for every procedure of the
`SERVER_CONFIG` registry that declaration order is exactly (immutable
parameters in order, then mutable parameters in order); and the
dispatcher deallocates the argument buffer after decoding and before
invoking the registered implementation (full trace shape). -/
theorem c7_argument_tuple_order :
    (∀ args : List RegArg, hostEncodeOrder args = guestDecodeOrder args) ∧
    (∀ f ∈ SERVER_CONFIG, guestDecodeOrder f.args = immThenMutOrder f.args) ∧
    (∀ (A C V : Type) (env : GuestEnv A C V) (argPtr argSize : Nat) (args : A)
        (c : C),
        env.decodeArgs (readBytes env.mem argPtr argSize) = some args →
        env.cfg = some c →
        (guestDispatch env argPtr argSize).2 =
          [.memRead argPtr argSize, .deallocCall argPtr argSize, .implCall,
           .allocCall ((env.encodeRes (env.impl c args)).length % U32),
           .memWrite (env.retAlloc ((env.encodeRes (env.impl c args)).length % U32))
             ((env.encodeRes (env.impl c args)).length % U32)]) := by
  refine ⟨fun args => rfl, by decide, ?_⟩
  intro A C V env argPtr argSize args c hdec hcfg
  simp [guestDispatch, hdec, hcfg]

/-- Witness for C7: the registry's `filter_from` entry, and the concrete
configured guest environment's full trace. -/
theorem c7_argument_tuple_order_witness :
    guestDecodeOrder [⟨"from", false⟩, ⟨"meta", true⟩, ⟨"conn_meta", true⟩] =
      immThenMutOrder [⟨"from", false⟩, ⟨"meta", true⟩, ⟨"conn_meta", true⟩] ∧
    (guestDispatch genvOk 100 8).2 =
      [.memRead 100 8, .deallocCall 100 8, .implCall, .allocCall 3, .memWrite 16 3] := by
  constructor
  · exact c7_argument_tuple_order.2.1
      ⟨"server_config_filter_from", "filter_from",
        [⟨"from", false⟩, ⟨"meta", true⟩, ⟨"conn_meta", true⟩], false⟩
      (by decide)
  · exact c7_argument_tuple_order.2.2 Nat Nat Nat genvOk 100 8 0 0 rfl rfl

/-- Every invocation of a generated host closure begins by calling the
guest allocator with the (truncated) argument size, whatever the history
of the instance: the closure consults no state besides its per-call
inputs. -/
theorem hostCall_trace_head (V : Type) (env : HostEnv V) (argSize : Nat)
    (args : List (RegArg × V)) :
    ((hostCall env argSize args).2.2).head? = some (.allocCall (argSize % U32)) := by
  cases h1 : env.alloc (argSize % U32) with
  | none => simp [hostCall, h1]
  | some argPtr =>
    by_cases h2 : argPtr + argSize % U32 < env.memSize
    · cases h3 : env.callRet argPtr (argSize % U32) with
      | none => simp [hostCall, h1, h2, h3]
      | some w =>
        by_cases h4 : unpackPtr w + unpackSize w < env.memSize
        · by_cases h5 : env.deallocOk
          · cases h6 : env.decodeRes (readBytes env.mem (unpackPtr w) (unpackSize w)) with
            | none => simp [hostCall, h1, h2, h3, h4, h5, h6]
            | some rm =>
              obtain ⟨rr, muts⟩ := rm
              cases h7 : assignMuts args muts with
              | none => simp [hostCall, h1, h2, h3, h4, h5, h6, h7]
              | some newArgs => simp [hostCall, h1, h2, h3, h4, h5, h6, h7]
          · simp [hostCall, h1, h2, h3, h4, h5]
        · simp [hostCall, h1, h2, h3, h4]
    · simp [hostCall, h1, h2]

/-- Whenever allocation succeeds and the argument region passes the
bounds check, the host closure does invoke the wasm function. -/
theorem hostCall_guest_attempted (V : Type) (env : HostEnv V) (argSize : Nat)
    (args : List (RegArg × V)) (p : Nat)
    (h1 : env.alloc (argSize % U32) = some p)
    (h2 : p + argSize % U32 < env.memSize) :
    Event.guestCall p (argSize % U32) ∈ (hostCall env argSize args).2.2 := by
  cases h3 : env.callRet p (argSize % U32) with
  | none => simp [hostCall, h1, h2, h3]
  | some w =>
    by_cases h4 : unpackPtr w + unpackSize w < env.memSize
    · by_cases h5 : env.deallocOk
      · cases h6 : env.decodeRes (readBytes env.mem (unpackPtr w) (unpackSize w)) with
        | none => simp [hostCall, h1, h2, h3, h4, h5, h6]
        | some rm =>
          obtain ⟨rr, muts⟩ := rm
          cases h7 : assignMuts args muts with
          | none => simp [hostCall, h1, h2, h3, h4, h5, h6, h7]
          | some newArgs => simp [hostCall, h1, h2, h3, h4, h5, h6, h7]
      · simp [hostCall, h1, h2, h3, h4, h5]
    · simp [hostCall, h1, h2, h3, h4]

/-- C1 counterexample: the claim says every pointer/size pair crossing
the boundary is validated against the current Linear Memory Region
before any byte at it is read, in both directions.  On the guest
direction this is false: with current memory size 4, the dispatcher
invoked on the pair (100, 8) — which extends far beyond memory — still
dereferences it first (the trace begins with the raw read of that exact
pair) and completes without any rejection. -/
theorem c1_guest_reads_unvalidated_cex :
    genvOk.memSize < 100 + 8 ∧
    ((guestDispatch genvOk 100 8).2).head? = some (.memRead 100 8) ∧
    (guestDispatch genvOk 100 8).1 = .ok (packRet 3 16) :=
  ⟨by decide, by decide, rfl⟩

/-- C1 (amended): pointer/size pairs crossing the boundary are validated
before dereference on the host side only — every raw write or read the
host performs is covered by a prior `address + size < memory size` check
— while the guest dispatcher and the guest `setup` entry point
dereference the pair they are handed unconditionally (their first action
is the raw read, whatever the ambient memory size), relying on the wasm
sandbox itself to contain out-of-bounds accesses. -/
theorem c1_boundary_validation_host_only :
    (∀ (V : Type) (env : HostEnv V) (argSize : Nat) (args : List (RegArg × V))
        (q r : Nat), Event.memWrite q r ∈ (hostCall env argSize args).2.2 →
        q + r < env.memSize) ∧
    (∀ (V : Type) (env : HostEnv V) (argSize : Nat) (args : List (RegArg × V))
        (q r : Nat), Event.memRead q r ∈ (hostCall env argSize args).2.2 →
        q + r < env.memSize) ∧
    (∀ (env : HostSetupEnv) (argSize q r : Nat),
        Event.memWrite q r ∈ (hostSetup env argSize).2 → q + r < env.memSize) ∧
    (∀ (A C V : Type) (env : GuestEnv A C V) (argPtr argSize : Nat),
        ((guestDispatch env argPtr argSize).2).head? =
          some (.memRead argPtr argSize)) ∧
    (∀ (P C : Type) (env : GuestSetupEnv P C) (cfg0 : Option C)
        (argPtr argSize : Nat),
        ((guestSetup env cfg0 argPtr argSize).2.2).head? =
          some (.memRead argPtr argSize)) := by
  refine ⟨?_, ?_, ?_, ?_, ?_⟩
  · intro V env argSize args q r hmem
    cases h1 : env.alloc (argSize % U32) with
    | none => simp [hostCall, h1] at hmem
    | some argPtr =>
      by_cases h2 : argPtr + argSize % U32 < env.memSize
      · cases h3 : env.callRet argPtr (argSize % U32) with
        | none => simp [hostCall, h1, h2, h3] at hmem; omega
        | some w =>
          by_cases h4 : unpackPtr w + unpackSize w < env.memSize
          · by_cases h5 : env.deallocOk
            · cases h6 : env.decodeRes (readBytes env.mem (unpackPtr w) (unpackSize w)) with
              | none => simp [hostCall, h1, h2, h3, h4, h5, h6] at hmem; omega
              | some rm =>
                obtain ⟨rr, muts⟩ := rm
                cases h7 : assignMuts args muts with
                | none => simp [hostCall, h1, h2, h3, h4, h5, h6, h7] at hmem; omega
                | some newArgs =>
                  simp [hostCall, h1, h2, h3, h4, h5, h6, h7] at hmem; omega
            · simp [hostCall, h1, h2, h3, h4, h5] at hmem; omega
          · simp [hostCall, h1, h2, h3, h4] at hmem; omega
      · simp [hostCall, h1, h2] at hmem
  · intro V env argSize args q r hmem
    cases h1 : env.alloc (argSize % U32) with
    | none => simp [hostCall, h1] at hmem
    | some argPtr =>
      by_cases h2 : argPtr + argSize % U32 < env.memSize
      · cases h3 : env.callRet argPtr (argSize % U32) with
        | none => simp [hostCall, h1, h2, h3] at hmem
        | some w =>
          by_cases h4 : unpackPtr w + unpackSize w < env.memSize
          · by_cases h5 : env.deallocOk
            · cases h6 : env.decodeRes (readBytes env.mem (unpackPtr w) (unpackSize w)) with
              | none => simp [hostCall, h1, h2, h3, h4, h5, h6] at hmem; omega
              | some rm =>
                obtain ⟨rr, muts⟩ := rm
                cases h7 : assignMuts args muts with
                | none => simp [hostCall, h1, h2, h3, h4, h5, h6, h7] at hmem; omega
                | some newArgs =>
                  simp [hostCall, h1, h2, h3, h4, h5, h6, h7] at hmem; omega
            · simp [hostCall, h1, h2, h3, h4, h5] at hmem; omega
          · simp [hostCall, h1, h2, h3, h4] at hmem
      · simp [hostCall, h1, h2] at hmem
  · intro env argSize q r hmem
    cases h1 : env.alloc (argSize % U32) with
    | none => simp [hostSetup, h1] at hmem
    | some argPtr =>
      by_cases h2 : argPtr + argSize % U32 < env.memSize
      · by_cases h3 : env.callOk argPtr (argSize % U32)
        · simp [hostSetup, h1, h2, h3] at hmem; omega
        · simp [hostSetup, h1, h2, h3] at hmem; omega
      · simp [hostSetup, h1, h2] at hmem
  · intro A C V env argPtr argSize
    cases h : env.decodeArgs (readBytes env.mem argPtr argSize) with
    | none => simp [guestDispatch, h]
    | some args => cases hc : env.cfg <;> simp [guestDispatch, h, hc]
  · intro P C env cfg0 argPtr argSize
    cases h : env.decodePath (readBytes env.mem argPtr argSize) with
    | none => simp [guestSetup, h]
    | some p => cases cfg0 <;> simp [guestSetup, h]

/-- Witness for the amended C1: a concrete host write event implies its
bounds held. -/
theorem c1_boundary_validation_host_only_witness : (8 : Nat) + 5 < envOk.memSize :=
  c1_boundary_validation_host_only.1 Nat envOk 5 [] 8 5 (by decide)

/-- C3 counterexample: the claim says that after a call traps, every
subsequent call on the same instance fails immediately without
attempting the call into the guest.  The generated client records no
fault state: on the instance whose wasm function traps, the call
surfaces the trap, yet the very same closure invoked again still calls
the guest allocator and the wasm function (the trace contains both), and
with the guest subsequently answering (`envOk` differs from `envTrap`
only in the wasm function's response, which nothing in the generated
code constrains after a trap) the call even succeeds. -/
theorem c3_no_fault_state_cex :
    (hostCall envTrap 5 ([] : List (RegArg × Nat))).1 = .error .guestTrap ∧
    Event.allocCall 5 ∈ (hostCall envTrap 5 ([] : List (RegArg × Nat))).2.2 ∧
    Event.guestCall 8 5 ∈ (hostCall envTrap 5 ([] : List (RegArg × Nat))).2.2 ∧
    (hostCall envOk 5 ([] : List (RegArg × Nat))).1 = .ok 7 :=
  ⟨rfl, by decide, by decide, rfl⟩

/-- C3 (amended): the generated host client keeps no record of previous
traps; every call — including any call after a trap — unconditionally
re-runs the full pipeline, starting with a guest allocator call, and
invokes the wasm function whenever allocation and the bounds check pass.
Refusing calls on a faulted instance is left to the sandbox runtime and
the caller, not implemented by this code. -/
theorem c3_no_fault_state (V : Type) (env : HostEnv V) (argSize : Nat)
    (args : List (RegArg × V)) :
    ((hostCall env argSize args).2.2).head? = some (.allocCall (argSize % U32)) ∧
    (∀ p, env.alloc (argSize % U32) = some p →
      p + argSize % U32 < env.memSize →
      Event.guestCall p (argSize % U32) ∈ (hostCall env argSize args).2.2) :=
  ⟨hostCall_trace_head V env argSize args,
   fun p h1 h2 => hostCall_guest_attempted V env argSize args p h1 h2⟩

/-- Witness for the amended C3 on the trapping instance. -/
theorem c3_no_fault_state_witness :
    Event.guestCall 8 5 ∈ (hostCall envTrap 5 ([] : List (RegArg × Nat))).2.2 :=
  (c3_no_fault_state Nat envTrap 5 []).2 8 rfl (by decide)

/-- C8 counterexample: the claim says a computed encoding size beyond
the 32-bit range fails the call with `SizeOverflow` before any allocator
call.  In the code the only guard is a `debug_assert!` (erased in
release) followed by a truncating `as u32` cast: with computed size
`2^32` the call does not fail at all (it runs to completion) and the
allocator IS called — with the truncated size 0.  No `SizeOverflow`
variant exists in the host error repertoire. -/
theorem c8_size_overflow_cex :
    (hostCall envOk (2 ^ 32) ([] : List (RegArg × Nat))).1 = .ok 7 ∧
    Event.allocCall 0 ∈ (hostCall envOk (2 ^ 32) ([] : List (RegArg × Nat))).2.2 :=
  ⟨rfl, by decide⟩

/-- C8 (amended): an oversized computed encoding size is not detected:
in release builds it is truncated modulo `2^32` (strictly shrinking it)
and the guest allocator is called with the truncated size as the
pipeline's first action; no overflow error is produced. -/
theorem c8_size_truncated_not_checked (V : Type) (env : HostEnv V) (argSize : Nat)
    (args : List (RegArg × V)) (h : 2 ^ 32 ≤ argSize) :
    ((hostCall env argSize args).2.2).head? = some (.allocCall (argSize % U32)) ∧
    argSize % U32 < argSize := by
  refine ⟨hostCall_trace_head V env argSize args, ?_⟩
  have hlt : argSize % U32 < U32 := Nat.mod_lt _ (by norm_num [U32])
  have hle : U32 ≤ argSize := by
    have : U32 = 2 ^ 32 := by norm_num [U32]
    omega
  omega

/-- Witness for the amended C8 at the concrete oversized size `2^32`. -/
theorem c8_size_truncated_not_checked_witness :
    ((hostCall envOk (2 ^ 32) ([] : List (RegArg × Nat))).2.2).head? =
      some (.allocCall (2 ^ 32 % U32)) ∧
    (2 ^ 32 : Nat) % U32 < 2 ^ 32 :=
  c8_size_truncated_not_checked Nat envOk (2 ^ 32) [] (le_refl _)

end Kannader
